import Mathlib

/-!
Shallow embedding of the PredictX used-bike price service (a single-file
Flask app, `app.py`). Numeric values are modelled as exact rationals.
The embedding covers the heuristic adjuster `apply_heuristics`, the JSON
endpoint `predict_api`, the form handler `index` (POST path), the
`health` endpoint, and the model-loading state set up at import time.
-/

/-- Python truthiness of an optional string: `None` and the empty string
are falsy, every other string is truthy (`if owner:` in the source). -/
def truthyStr : Option String → Bool
  | none => false
  | some s => s != ""

/-- Does `pat` occur at the head of `s`? (character-list helper) -/
def leadMatch : List Char → List Char → Bool
  | [], _ => true
  | _ :: _, [] => false
  | p :: ps, c :: cs => p == c && leadMatch ps cs

/-- Does `pat` occur as a contiguous sublist of `s`? (character-list helper) -/
def subMatch (pat : List Char) : List Char → Bool
  | [] => pat.isEmpty
  | c :: cs => leadMatch pat (c :: cs) || subMatch pat cs

/-- Python substring containment `pat in s` for strings. -/
def strContainsSub (s pat : String) : Bool := subMatch pat.data s.data

/-- Python `str.lower()` restricted to ASCII, which covers every string the
heuristic tables can match. -/
def pyLower (s : String) : String := ⟨s.data.map Char.toLower⟩

/-- Python `dict.get(key, default)` over an association list with string
keys (dictionaries in the source have distinct keys, and iteration order is
insertion order, matched here by list order). -/
def lookupOr (tbl : List (String × ℚ)) (k : String) (d : ℚ) : ℚ :=
  match tbl.find? (fun p => p.1 == k) with
  | some p => p.2
  | none => d

/-- The `owner_map` table of `apply_heuristics`. -/
def owner_map : List (String × ℚ) :=
  [("1st owner", 1.05), ("2nd owner", 0.98), ("3rd owner", 0.94), ("4th owner", 0.90)]

/-- The `seller_map` table of `apply_heuristics`. -/
def seller_map : List (String × ℚ) :=
  [("individual", 1.00), ("dealer", 1.03), ("trustmark dealer", 1.05)]

/-- The `model_map` table of `apply_heuristics`, in declaration order. -/
def model_map : List (String × ℚ) :=
  [("royal", 1.15), ("honda", 1.06), ("yamaha", 1.05), ("bajaj", 1.00),
   ("hero", 1.00), ("suzuki", 1.04)]

/-- The breakdown dictionary built by `apply_heuristics`: `none` means the
key is absent from the dictionary. -/
structure Breakdown where
  base : ℚ
  owner_multiplier : Option ℚ
  seller_multiplier : Option ℚ
  km_multiplier : Option ℚ
  model_multiplier : Option ℚ
  adjusted : Option ℚ
  total_multiplier : Option ℚ
deriving DecidableEq

/-- The breakdown as first created: `breakdown = {"base": float(base_pred)}`. -/
def Breakdown.init (b : ℚ) : Breakdown :=
  { base := b, owner_multiplier := none, seller_multiplier := none,
    km_multiplier := none, model_multiplier := none,
    adjusted := none, total_multiplier := none }

/-- `apply_heuristics` from `app.py` (lines 36-110), with Python floats
modelled as exact rationals. Steps are applied in source order: owner,
seller_type, km_driven, model_name. -/
def apply_heuristics (base_pred : ℚ) (owner seller_type model_name : Option String)
    (km_driven : Option ℚ) (apply_adjustments : Bool) : ℚ × Breakdown :=
  let breakdown := Breakdown.init base_pred
  if !apply_adjustments then (base_pred, breakdown)
  else
    let multiplier : ℚ := 1.0
    let s1 :=
      if truthyStr owner then
        let mult := lookupOr owner_map (pyLower (owner.getD "")) 1.0
        (multiplier * mult, { breakdown with owner_multiplier := some mult })
      else (multiplier, breakdown)
    let s2 :=
      if truthyStr seller_type then
        let mult := lookupOr seller_map (pyLower (seller_type.getD "")) 1.0
        (s1.1 * mult, { s1.2 with seller_multiplier := some mult })
      else s1
    let s3 :=
      match km_driven with
      | some km =>
        let mult : ℚ :=
          if km > 50000 then 0.88
          else if km > 30000 then 0.95
          else if km < 15000 then 1.03
          else 1.0
        (s2.1 * mult, { s2.2 with km_multiplier := some mult })
      | none => s2
    let s4 :=
      if truthyStr model_name then
        let lowered := pyLower (model_name.getD "")
        match model_map.find? (fun p => strContainsSub lowered p.1) with
        | some p => (s3.1 * p.2, { s3.2 with model_multiplier := some p.2 })
        | none => (s3.1, { s3.2 with model_multiplier := some 1.0 })
      else s3
    let adjusted := base_pred * s4.1
    (adjusted, { s4.2 with adjusted := some adjusted, total_multiplier := some s4.1 })

/-- The owner factor written by `apply_heuristics` (`none` when the key is
absent from the breakdown). -/
def ownerMult (owner : Option String) : Option ℚ :=
  if truthyStr owner then some (lookupOr owner_map (pyLower (owner.getD "")) 1.0) else none

/-- The seller factor written by `apply_heuristics`. -/
def sellerMult (seller_type : Option String) : Option ℚ :=
  if truthyStr seller_type then some (lookupOr seller_map (pyLower (seller_type.getD "")) 1.0)
  else none

/-- The distance factor written by `apply_heuristics`. -/
def kmMult : Option ℚ → Option ℚ
  | none => none
  | some km => some
      (if km > 50000 then 0.88
       else if km > 30000 then 0.95
       else if km < 15000 then 1.03
       else 1.0)

/-- The model-name keyword factor written by `apply_heuristics`. -/
def modelMult (model_name : Option String) : Option ℚ :=
  if truthyStr model_name then
    some (((model_map.find? (fun p =>
        strContainsSub (pyLower (model_name.getD "")) p.1)).map Prod.snd).getD 1.0)
  else none

/-- The cumulative multiplier: product of the written factors, an absent
factor contributing 1. -/
def totalMult (owner seller_type model_name : Option String) (km_driven : Option ℚ) : ℚ :=
  (ownerMult owner).getD 1 * (sellerMult seller_type).getD 1 *
    (kmMult km_driven).getD 1 * (modelMult model_name).getD 1

set_option maxHeartbeats 1600000 in
/-- Closed form of `apply_heuristics` when adjustments are requested. -/
theorem apply_heuristics_true_eq (b : ℚ) (o s m : Option String) (km : Option ℚ) :
    apply_heuristics b o s m km true =
      (b * totalMult o s m km,
       { base := b, owner_multiplier := ownerMult o, seller_multiplier := sellerMult s,
         km_multiplier := kmMult km, model_multiplier := modelMult m,
         adjusted := some (b * totalMult o s m km),
         total_multiplier := some (totalMult o s m km) }) := by
  simp only [apply_heuristics, totalMult, ownerMult, sellerMult, kmMult, modelMult,
    Breakdown.init, Bool.not_true, Bool.false_eq_true, if_false]
  cases ho : truthyStr o <;> cases hs : truthyStr s <;> cases hm : truthyStr m <;>
    cases km <;>
    cases hf : model_map.find? (fun p => strContainsSub (pyLower (m.getD "")) p.1)
  all_goals simp only [ho, hs, hm, hf, if_true, if_false, Option.map_some', Option.map_none',
    Option.getD_some, Option.getD_none, Bool.false_eq_true, Bool.true_eq_false]
  all_goals refine Prod.ext ?_ ?_ <;> simp only [Breakdown.mk.injEq, Option.some.injEq,
    Option.map_some', Option.map_none', Option.getD_some, Option.getD_none]
  all_goals try split_ifs
  all_goals repeat' apply And.intro
  all_goals first
  | rfl
  | ring_nf

/-- Product of the individual factor entries of a breakdown, an absent entry
counting as 1. -/
def factorProduct (bd : Breakdown) : ℚ :=
  bd.owner_multiplier.getD 1 * bd.seller_multiplier.getD 1 *
    bd.km_multiplier.getD 1 * bd.model_multiplier.getD 1

/-- C4: with `apply_adjustments` false the adjuster returns the base
prediction unchanged and a breakdown holding only the `base` key, for every
combination of the optional arguments. -/
theorem no_adjustments_identity (b : ℚ) (o s m : Option String) (km : Option ℚ) :
    apply_heuristics b o s m km false = (b, Breakdown.init b) := rfl

/-- C6: base 50000, owner `1st owner`, km 15000, adjustments on: owner factor
1.05, distance factor 1.00 (15000 is in the default band), total multiplier
1.05, adjusted prediction 52500. -/
theorem end_to_end_owner_km_scenario :
    apply_heuristics 50000 (some "1st owner") none none (some 15000) true =
      (52500, { base := 50000, owner_multiplier := some 1.05, seller_multiplier := none,
                km_multiplier := some 1.0, model_multiplier := none,
                adjusted := some 52500, total_multiplier := some 1.05 }) := by
  have h1 : ownerMult (some "1st owner") = some 1.05 := rfl
  rw [apply_heuristics_true_eq]
  simp only [totalMult, h1, sellerMult, kmMult, modelMult, truthyStr]
  norm_num

/-- C8: whenever adjustments are applied, the recorded total multiplier is
the product of the recorded individual factors (an absent factor counting
as 1), the recorded adjusted value is the base times that product, and the
returned adjusted prediction agrees with it. -/
theorem total_multiplier_is_product (b : ℚ) (o s m : Option String) (km : Option ℚ) :
    (apply_heuristics b o s m km true).2.total_multiplier =
        some (factorProduct (apply_heuristics b o s m km true).2) ∧
      (apply_heuristics b o s m km true).2.adjusted =
        some ((apply_heuristics b o s m km true).2.base *
          factorProduct (apply_heuristics b o s m km true).2) ∧
      (apply_heuristics b o s m km true).1 =
        (apply_heuristics b o s m km true).2.base *
          factorProduct (apply_heuristics b o s m km true).2 := by
  rw [apply_heuristics_true_eq]
  exact ⟨rfl, rfl, rfl⟩

/-- C9: the cumulative multiplier does not depend on the base prediction:
scaling the base by `k` scales the adjusted prediction by `k` and leaves the
total multiplier unchanged (exact arithmetic). -/
theorem adjustment_linear_in_base (k b : ℚ) (o s m : Option String) (km : Option ℚ) :
    (apply_heuristics (k * b) o s m km true).1 = k * (apply_heuristics b o s m km true).1 ∧
      (apply_heuristics (k * b) o s m km true).2.total_multiplier =
        (apply_heuristics b o s m km true).2.total_multiplier := by
  rw [apply_heuristics_true_eq, apply_heuristics_true_eq]
  exact ⟨by ring, rfl⟩

/-- C10: adjustments requested but no factor provided (owner, seller and
model name empty or absent, km absent): the adjusted prediction equals the
base, the total multiplier is 1, and no per-factor key is written. -/
theorem adjustments_with_no_factors_identity (b : ℚ) (o s m : Option String)
    (ho : truthyStr o = false) (hs : truthyStr s = false) (hm : truthyStr m = false) :
    apply_heuristics b o s m none true =
      (b, { base := b, owner_multiplier := none, seller_multiplier := none,
            km_multiplier := none, model_multiplier := none,
            adjusted := some b, total_multiplier := some 1.0 }) := by
  rw [apply_heuristics_true_eq]
  simp only [totalMult, ownerMult, sellerMult, kmMult, modelMult, ho, hs, hm,
    Bool.false_eq_true, if_false, Option.getD_none]
  norm_num

/-- C10 witness at base 7 with empty owner and model strings and absent
seller. -/
theorem adjustments_with_no_factors_identity_witness :
    truthyStr (some "") = false ∧ truthyStr none = false ∧
      apply_heuristics 7 (some "") none (some "") none true =
        (7, { base := 7, owner_multiplier := none, seller_multiplier := none,
              km_multiplier := none, model_multiplier := none,
              adjusted := some 7, total_multiplier := some 1.0 }) :=
  ⟨rfl, rfl, adjustments_with_no_factors_identity 7 (some "") none (some "") rfl rfl rfl⟩

/-- C2: the distance factor recorded for any provided `km_driven` (zero
included) follows the ordered step function `>50000 → 0.88`, `>30000 → 0.95`,
`<15000 → 1.03`, otherwise `1.00`; boundary values behave as the step order
dictates. -/
theorem km_multiplier_step_function :
    (∀ (b : ℚ) (o s m : Option String) (km : ℚ),
      (apply_heuristics b o s m (some km) true).2.km_multiplier =
        some (if km > 50000 then 0.88 else if km > 30000 then 0.95
              else if km < 15000 then 1.03 else 1.00)) ∧
      (apply_heuristics 1 none none none (some 50001) true).2.km_multiplier = some 0.88 ∧
      (apply_heuristics 1 none none none (some 50000) true).2.km_multiplier = some 0.95 ∧
      (apply_heuristics 1 none none none (some 30001) true).2.km_multiplier = some 0.95 ∧
      (apply_heuristics 1 none none none (some 30000) true).2.km_multiplier = some 1.00 ∧
      (apply_heuristics 1 none none none (some 14999) true).2.km_multiplier = some 1.03 ∧
      (apply_heuristics 1 none none none (some 15000) true).2.km_multiplier = some 1.00 ∧
      (apply_heuristics 1 none none none (some 0) true).2.km_multiplier = some 1.03 := by
  refine ⟨?_, ?_, ?_, ?_, ?_, ?_, ?_, ?_⟩ <;>
    [skip; norm_num [apply_heuristics_true_eq, kmMult];
     norm_num [apply_heuristics_true_eq, kmMult];
     norm_num [apply_heuristics_true_eq, kmMult];
     norm_num [apply_heuristics_true_eq, kmMult];
     norm_num [apply_heuristics_true_eq, kmMult];
     norm_num [apply_heuristics_true_eq, kmMult];
     norm_num [apply_heuristics_true_eq, kmMult]]
  intro b o s m km
  rw [apply_heuristics_true_eq]
  show kmMult (some km) = _
  simp only [kmMult]
  norm_num

/-- C3: with a non-empty model name the adjuster lower-cases it and records
the factor of the first `model_map` key (table order) occurring as a
substring; `Royal Honda` gets royal 1.15, not honda 1.06; with no matching
keyword the recorded factor is 1.0 and the cumulative multiplier is
unchanged. -/
theorem model_keyword_first_match :
    (∀ (b : ℚ) (mn : String), mn ≠ "" →
      (apply_heuristics b none none (some mn) none true).2.model_multiplier =
        some (((model_map.find? (fun p => strContainsSub (pyLower mn) p.1)).map
          Prod.snd).getD 1.0)) ∧
      (apply_heuristics 1 none none (some "Royal Honda") none true).2.model_multiplier =
        some 1.15 ∧
      (apply_heuristics 1 none none (some "Royal Honda") none true).2.model_multiplier ≠
        some 1.06 ∧
      (∀ (b : ℚ) (mn : String), mn ≠ "" →
        model_map.find? (fun p => strContainsSub (pyLower mn) p.1) = none →
        (apply_heuristics b none none (some mn) none true).2.model_multiplier = some 1.0 ∧
          (apply_heuristics b none none (some mn) none true).2.total_multiplier = some 1.0 ∧
          (apply_heuristics b none none (some mn) none true).1 = b) := by
  have hm115 : modelMult (some "Royal Honda") = some 1.15 := rfl
  refine ⟨?_, ?_, ?_, ?_⟩
  · intro b mn hmn
    rw [apply_heuristics_true_eq]
    show modelMult (some mn) = _
    simp [modelMult, truthyStr, hmn]
  · rw [apply_heuristics_true_eq]
    show modelMult (some "Royal Honda") = _
    exact hm115
  · rw [apply_heuristics_true_eq]
    show modelMult (some "Royal Honda") ≠ _
    rw [hm115]
    simp only [ne_eq, Option.some.injEq]
    norm_num
  · intro b mn hmn hfind
    rw [apply_heuristics_true_eq]
    refine ⟨?_, ?_, ?_⟩ <;>
      norm_num [modelMult, totalMult, ownerMult, sellerMult, kmMult, truthyStr, hmn, hfind]

/-- C3 witness: `Bullet 350` matches no keyword, so the factor 1.0 is
recorded and the prediction is unchanged; the general lookup rule applied to
`Suzuki Access`. -/
theorem model_keyword_first_match_witness :
    ("Bullet 350" ≠ "" ∧
      model_map.find? (fun p => strContainsSub (pyLower "Bullet 350") p.1) = none ∧
      ((apply_heuristics 5 none none (some "Bullet 350") none true).2.model_multiplier =
          some 1.0 ∧
        (apply_heuristics 5 none none (some "Bullet 350") none true).2.total_multiplier =
          some 1.0 ∧
        (apply_heuristics 5 none none (some "Bullet 350") none true).1 = 5)) ∧
      ("Suzuki Access" ≠ "" ∧
        (apply_heuristics 5 none none (some "Suzuki Access") none true).2.model_multiplier =
          some (((model_map.find? (fun p => strContainsSub (pyLower "Suzuki Access") p.1)).map
            Prod.snd).getD 1.0)) :=
  ⟨⟨by decide, rfl, model_keyword_first_match.2.2.2 5 "Bullet 350" (by decide) rfl⟩,
   ⟨by decide, model_keyword_first_match.1 5 "Suzuki Access" (by decide)⟩⟩

/-- C5: with a non-empty owner string the owner factor is the lower-cased
lookup in `owner_map`; `1ST OWNER` and `1st owner` agree (both 1.05); an
unrecognized owner such as `5th owner` still writes the key, with factor
1.0; an empty or absent owner writes no key. -/
theorem owner_factor_lookup :
    (∀ (b : ℚ) (ow : String), ow ≠ "" →
      (apply_heuristics b (some ow) none none none true).2.owner_multiplier =
        some (lookupOr owner_map (pyLower ow) 1.0)) ∧
      (apply_heuristics 1 (some "1ST OWNER") none none none true).2.owner_multiplier =
        (apply_heuristics 1 (some "1st owner") none none none true).2.owner_multiplier ∧
      (apply_heuristics 1 (some "1ST OWNER") none none none true).2.owner_multiplier =
        some 1.05 ∧
      (apply_heuristics 1 (some "5th owner") none none none true).2.owner_multiplier =
        some 1.0 ∧
      (∀ (b : ℚ) (o : Option String), truthyStr o = false →
        (apply_heuristics b o none none none true).2.owner_multiplier = none) := by
  have hup : ownerMult (some "1ST OWNER") = some 1.05 := rfl
  have hlo : ownerMult (some "1st owner") = some 1.05 := rfl
  have h5 : ownerMult (some "5th owner") = some 1.0 := rfl
  refine ⟨?_, ?_, ?_, ?_, ?_⟩
  · intro b ow how
    rw [apply_heuristics_true_eq]
    show ownerMult (some ow) = _
    simp [ownerMult, truthyStr, how]
  · rw [apply_heuristics_true_eq, apply_heuristics_true_eq]
    show ownerMult (some "1ST OWNER") = ownerMult (some "1st owner")
    rw [hup, hlo]
  · rw [apply_heuristics_true_eq]
    show ownerMult (some "1ST OWNER") = _
    exact hup
  · rw [apply_heuristics_true_eq]
    show ownerMult (some "5th owner") = _
    exact h5
  · intro b o ho
    rw [apply_heuristics_true_eq]
    show ownerMult o = none
    simp [ownerMult, ho]

/-- C5 witness: the general lookup applied to `2nd owner`, and the
absent-owner rule applied to `none`. -/
theorem owner_factor_lookup_witness :
    ("2nd owner" ≠ "" ∧
      (apply_heuristics 3 (some "2nd owner") none none none true).2.owner_multiplier =
        some (lookupOr owner_map (pyLower "2nd owner") 1.0)) ∧
      (truthyStr none = false ∧
        (apply_heuristics 3 none none none none true).2.owner_multiplier = none) :=
  ⟨⟨by decide, owner_factor_lookup.1 3 "2nd owner" (by decide)⟩,
   ⟨rfl, owner_factor_lookup.2.2.2.2 3 none rfl⟩⟩

/-- A JSON value as far as the prediction endpoint inspects it. -/
inductive JVal where
  | jnum (q : ℚ)
  | jbool (b : Bool)
  | jstr (s : String)
  | jnull
deriving DecidableEq

/-- A JSON object body: an association list of fields. -/
abbrev JsonObj := List (String × JVal)

/-- Digits of a decimal numeral folded into a natural number; `none` when a
non-digit occurs. -/
def digitsToNat (l : List Char) : Option Nat :=
  l.foldl (fun acc c =>
    match acc with
    | none => none
    | some n => if c.isDigit then some (n * 10 + (c.toNat - 48)) else none) (some 0)

/-- A nonempty all-digit run read as a natural number. -/
def digitRun (l : List Char) : Option Nat :=
  if l.isEmpty then none else digitsToNat l

/-- Python `int(<string>)` on the decimal grammar the service receives:
optional sign followed by digits. -/
def parseIntString (s : String) : Option Int :=
  match s.data with
  | [] => none
  | c :: rest =>
    if c == '-' then (digitRun rest).map (fun n => -(n : Int))
    else if c == '+' then (digitRun rest).map (fun n => (n : Int))
    else (digitRun (c :: rest)).map (fun n => (n : Int))

/-- Unsigned decimal with an optional fraction part. -/
def parseUnsignedRat (l : List Char) : Option ℚ :=
  let intPart := l.takeWhile Char.isDigit
  let rest := l.dropWhile Char.isDigit
  match rest with
  | [] => (digitRun intPart).map (fun n => (n : ℚ))
  | c :: frac =>
    if c == '.' && frac.all Char.isDigit && !(intPart.isEmpty && frac.isEmpty) then
      match digitsToNat intPart, digitsToNat frac with
      | some i, some f => some ((i : ℚ) + (f : ℚ) / (10 : ℚ) ^ frac.length)
      | _, _ => none
    else none

/-- Python `float(<string>)` on the decimal grammar the service receives:
optional sign, digits, optional decimal point. -/
def parseRatString (s : String) : Option ℚ :=
  match s.data with
  | [] => none
  | c :: rest =>
    if c == '-' then (parseUnsignedRat rest).map (fun q => -q)
    else if c == '+' then parseUnsignedRat rest
    else parseUnsignedRat (c :: rest)

/-- Python `int(x)` for the JSON values the endpoint can receive: numbers
truncate toward zero, booleans coerce to 0 or 1, strings parse as decimal
integers, `null` raises a TypeError. -/
def pyIntOf : JVal → Except String Int
  | .jnum q => .ok (q.num.tdiv (q.den : Int))
  | .jbool b => .ok (if b then 1 else 0)
  | .jstr s =>
    match parseIntString s with
    | some n => .ok n
    | none => .error ("invalid literal for int() with base 10: " ++ s)
  | .jnull =>
    .error "int() argument must be a string, a bytes-like object or a real number, not NoneType"

/-- Python `float(x)` for the JSON values the endpoint can receive. -/
def pyFloatOf : JVal → Except String ℚ
  | .jnum q => .ok q
  | .jbool b => .ok (if b then 1 else 0)
  | .jstr s =>
    match parseRatString s with
    | some q => .ok q
    | none => .error ("could not convert string to float: " ++ s)
  | .jnull => .error "float() argument must be a string or a real number, not NoneType"

/-- Python `bool(x)` on a JSON value. -/
def jtruthy : JVal → Bool
  | .jnum q => q != 0
  | .jbool b => b
  | .jstr s => s != ""
  | .jnull => false

/-- Membership test `key in data`. -/
def jmem (d : JsonObj) (k : String) : Bool := d.any (fun p => p.1 == k)

/-- `data.get(key)`. -/
def jget (d : JsonObj) (k : String) : Option JVal :=
  (d.find? (fun p => p.1 == k)).map Prod.snd

/-- `data[key]`, used only after the missing-key check has passed. -/
def jval (d : JsonObj) (k : String) : JVal := (jget d k).getD .jnull

/-- `data.get(key)` for the optional owner, seller and model-name fields,
which the handler passes straight into `apply_heuristics` where they are
used as strings; absent and `null` become `None`. -/
def jgetStr (d : JsonObj) (k : String) : Option String :=
  match jget d k with
  | some (.jstr s) => some s
  | _ => none

/-- The deserialized regression model: a prediction function over the
ordered feature vector `[year, km_driven, ex_showroom_price, age]`, plus
an optional `feature_names_in_` attribute. -/
structure TrainedModel where
  predictFn : Int → ℚ → ℚ → Int → ℚ
  feature_names_in : Option (List String)

/-- Module-level state set at import: the loaded model (if any) and the
load-error message. The separate `model_loaded` flag of the source always
equals `model.isSome`; see `initModelState`. -/
structure ModelState where
  model : Option TrainedModel
  load_error : Option String

def MODEL_PATH : String := "best_bike_price_model.pkl"

/-- The three ways the import-time load can go: file absent, joblib
failure, success. -/
inductive LoadOutcome where
  | fileMissing
  | loadFailed (msg : String)
  | loaded (m : TrainedModel)

/-- The model-loading block at the top of `app.py` (lines 17-31). -/
def initModelState : LoadOutcome → ModelState
  | .fileMissing =>
    { model := none,
      load_error := some ("Model file not found at " ++ MODEL_PATH ++
        ". Run the training notebook to create it.") }
  | .loadFailed msg => { model := none, load_error := some msg }
  | .loaded m => { model := some m, load_error := none }

/-- `model_loaded` as maintained by the loading block. -/
def model_loaded (st : ModelState) : Bool := st.model.isSome

/-- The JSON response of the `/predict` endpoint: HTTP status plus the
fields the handler can emit. -/
structure ApiResponse where
  status : Nat
  error : Option String
  predicted_selling_price : Option ℚ
  adjusted_prediction : Option ℚ
  breakdown : Option Breakdown
deriving DecidableEq

/-- An error response `jsonify({"error": msg}), code`. -/
def errResp (code : Nat) (msg : String) : ApiResponse :=
  { status := code, error := some msg, predicted_selling_price := none,
    adjusted_prediction := none, breakdown := none }

def requiredKeys : List String := ["year", "km_driven", "ex_showroom_price"]

/-- `[k for k in required if k not in data]`. -/
def missingOf (d : JsonObj) : List String :=
  requiredKeys.filter (fun k => !(jmem d k))

/-- Python repr of a list of strings, as interpolated by the f-string in
the missing-fields message. -/
def pyStrListRepr (l : List String) : String :=
  "[" ++ String.intercalate ", " (l.map (fun s => "\x27" ++ s ++ "\x27")) ++ "]"

/-- The `try:` block of `predict_api` (parsing, range checks, prediction,
adjustments); a raised exception becomes `.error` with its message. When
`model` is `None`, `model.predict(X)` raises an AttributeError. -/
def predict_api_try (st : ModelState) (cy : Int) (d : JsonObj) : Except String ApiResponse :=
  match pyIntOf (jval d "year") with
  | .error e => .error e
  | .ok year =>
    match pyFloatOf (jval d "km_driven") with
    | .error e => .error e
    | .ok km_driven =>
      match pyFloatOf (jval d "ex_showroom_price") with
      | .error e => .error e
      | .ok ex_showroom_price =>
        if year < 1900 ∨ year > cy then .ok (errResp 400 "Invalid year")
        else if km_driven < 0 then .ok (errResp 400 "Invalid km_driven")
        else if ex_showroom_price ≤ 0 then .ok (errResp 400 "Invalid ex_showroom_price")
        else
          match st.model with
          | none => .error "NoneType object has no attribute predict"
          | some mdl =>
            let age := cy - year
            let pred := mdl.predictFn year km_driven ex_showroom_price age
            let owner := jgetStr d "owner"
            let seller_type := jgetStr d "seller_type"
            let model_name := jgetStr d "model_name"
            let apply_adjustments := jtruthy ((jget d "apply_adjustments").getD (.jbool false))
            let res := apply_heuristics pred owner seller_type model_name (some km_driven)
              apply_adjustments
            .ok { status := 200, error := none, predicted_selling_price := some pred,
                  adjusted_prediction := some res.1, breakdown := some res.2 }

/-- `predict_api`, the `/predict` JSON endpoint (app.py lines 192-240),
parametrized by the model state, the current year and the JSON body. -/
def predict_api (st : ModelState) (cy : Int) (d : JsonObj) : ApiResponse :=
  if d = [] then errResp 400 "No JSON payload provided"
  else if missingOf d ≠ [] then
    errResp 400 ("Missing fields: " ++ pyStrListRepr (missingOf d))
  else
    match predict_api_try st cy d with
    | .ok r => r
    | .error e => errResp 500 e

/-- What the form page is rendered with after a POST. -/
structure PageResult where
  prediction : Option ℚ
  adjusted_prediction : Option ℚ
  breakdown : Option Breakdown
  error : Option String
deriving DecidableEq

/-- `request.form.get(key)`: `None` when the field is absent. -/
def formGet (form : List (String × String)) (k : String) : Option String :=
  (form.find? (fun p => p.1 == k)).map Prod.snd

/-- `request.form.get(key) or None`: an empty field becomes `None`. -/
def orNone : Option String → Option String
  | some s => if s == "" then none else some s
  | none => none

/-- Python `int(x)` on an optional form string (`int(None)` raises). -/
def pyIntOfForm (o : Option String) : Except String Int :=
  pyIntOf (o.elim JVal.jnull JVal.jstr)

/-- Python `float(x)` on an optional form string. -/
def pyFloatOfForm (o : Option String) : Except String ℚ :=
  pyFloatOf (o.elim JVal.jnull JVal.jstr)

/-- The `try:` block of the POST path of `index` (app.py lines 127-165);
`model` is never `None` here in the source because `index` returns earlier
when the model is unloaded, but the corresponding AttributeError is kept
for totality. -/
def index_post_try (st : ModelState) (cy : Int) (form : List (String × String)) :
    Except String PageResult :=
  match pyIntOfForm (formGet form "year") with
  | .error e => .error e
  | .ok year =>
    match pyFloatOfForm (formGet form "km_driven") with
    | .error e => .error e
    | .ok km_driven =>
      match pyFloatOfForm (formGet form "ex_showroom_price") with
      | .error e => .error e
      | .ok ex_showroom_price =>
        let owner := orNone (formGet form "owner")
        let seller_type := orNone (formGet form "seller_type")
        let model_name := orNone (formGet form "model_name")
        let apply_adjustments := formGet form "apply_adjustments" == some "on"
        if year < 1900 ∨ year > cy then .error "Please enter a valid manufacturing year."
        else if km_driven < 0 then .error "Kilometers driven cannot be negative."
        else if ex_showroom_price ≤ 0 then .error "Ex-showroom price must be positive."
        else
          match st.model with
          | none => .error "NoneType object has no attribute predict"
          | some mdl =>
            let age := cy - year
            let pred := mdl.predictFn year km_driven ex_showroom_price age
            let res := apply_heuristics pred owner seller_type model_name (some km_driven)
              apply_adjustments
            .ok { prediction := some pred, adjusted_prediction := some res.1,
                  breakdown := some res.2, error := none }

/-- The POST branch of `index` (app.py lines 113-168): when the model is
not loaded the handler renders a friendly error without reading the form;
otherwise it runs the pipeline and renders any exception message inline. -/
def index_post (st : ModelState) (cy : Int) (form : List (String × String)) : PageResult :=
  if !(model_loaded st) then
    { prediction := none, adjusted_prediction := none, breakdown := none,
      error := some ("Model not loaded: " ++ st.load_error.getD "None") }
  else
    match index_post_try st cy form with
    | .ok r => r
    | .error e =>
      { prediction := none, adjusted_prediction := none, breakdown := none,
        error := some e }

/-- The JSON returned by the `/health` endpoint. -/
structure HealthResponse where
  model_loaded : Bool
  model_path : String
  load_error : Option String
  feature_names : Option (List String)
  cors_available : Bool
deriving DecidableEq

/-- The `/health` endpoint (app.py lines 171-189); `cors` records whether
flask_cors imported. -/
def health (st : ModelState) (cors : Bool) : HealthResponse :=
  { model_loaded := model_loaded st
  , model_path := MODEL_PATH
  , load_error := if model_loaded st then none else st.load_error
  , feature_names := st.model.bind (fun m => m.feature_names_in)
  , cors_available := cors }

/-- A stand-in regression model used for concrete endpoint runs. -/
def stubModel : TrainedModel :=
  { predictFn := fun _ _ _ _ => 50000, feature_names_in := none }

/-- C1 counterexample: all three required keys present and the model
loaded, but `year` fails numeric parsing; the endpoint answers HTTP 500
(the ValueError propagates to the generic handler), not HTTP 400 as the
claim states for invalid values. -/
theorem predict_api_parse_failure_gives_500 :
    predict_api (initModelState (.loaded stubModel)) 2025
        [("year", JVal.jstr "abc"), ("km_driven", JVal.jnum 1000),
         ("ex_showroom_price", JVal.jnum 50000)] =
      errResp 500 "invalid literal for int() with base 10: abc" ∧
      (predict_api (initModelState (.loaded stubModel)) 2025
        [("year", JVal.jstr "abc"), ("km_driven", JVal.jnum 1000),
         ("ex_showroom_price", JVal.jnum 50000)]).status ≠ 400 :=
  ⟨rfl, by decide⟩

/-- C1 (amended): error contract of the JSON endpoint. An empty body gives
400 with a no-payload message; a non-empty body missing required keys gives
400 naming the missing keys; values that parse but are out of range (year
outside [1900, current year], negative km, non-positive price) give 400
with a descriptive message; values that fail numeric parsing give 500, as
does reaching the prediction step with no model loaded. -/
theorem predict_api_error_status_contract (st : ModelState) (cy : Int) (d : JsonObj) :
    (d = [] → predict_api st cy d = errResp 400 "No JSON payload provided") ∧
      (d ≠ [] → missingOf d ≠ [] →
        predict_api st cy d =
          errResp 400 ("Missing fields: " ++ pyStrListRepr (missingOf d))) ∧
      (∀ e, d ≠ [] → missingOf d = [] →
        pyIntOf (jval d "year") = .error e →
        predict_api st cy d = errResp 500 e) ∧
      (∀ y e, d ≠ [] → missingOf d = [] →
        pyIntOf (jval d "year") = .ok y →
        pyFloatOf (jval d "km_driven") = .error e →
        predict_api st cy d = errResp 500 e) ∧
      (∀ y k e, d ≠ [] → missingOf d = [] →
        pyIntOf (jval d "year") = .ok y →
        pyFloatOf (jval d "km_driven") = .ok k →
        pyFloatOf (jval d "ex_showroom_price") = .error e →
        predict_api st cy d = errResp 500 e) ∧
      (∀ y k p, d ≠ [] → missingOf d = [] →
        pyIntOf (jval d "year") = .ok y →
        pyFloatOf (jval d "km_driven") = .ok k →
        pyFloatOf (jval d "ex_showroom_price") = .ok p →
        (y < 1900 ∨ y > cy) →
        predict_api st cy d = errResp 400 "Invalid year") ∧
      (∀ y k p, d ≠ [] → missingOf d = [] →
        pyIntOf (jval d "year") = .ok y →
        pyFloatOf (jval d "km_driven") = .ok k →
        pyFloatOf (jval d "ex_showroom_price") = .ok p →
        ¬(y < 1900 ∨ y > cy) → k < 0 →
        predict_api st cy d = errResp 400 "Invalid km_driven") ∧
      (∀ y k p, d ≠ [] → missingOf d = [] →
        pyIntOf (jval d "year") = .ok y →
        pyFloatOf (jval d "km_driven") = .ok k →
        pyFloatOf (jval d "ex_showroom_price") = .ok p →
        ¬(y < 1900 ∨ y > cy) → ¬(k < 0) → p ≤ 0 →
        predict_api st cy d = errResp 400 "Invalid ex_showroom_price") ∧
      (∀ y k p, d ≠ [] → missingOf d = [] →
        pyIntOf (jval d "year") = .ok y →
        pyFloatOf (jval d "km_driven") = .ok k →
        pyFloatOf (jval d "ex_showroom_price") = .ok p →
        ¬(y < 1900 ∨ y > cy) → ¬(k < 0) → ¬(p ≤ 0) → st.model = none →
        predict_api st cy d = errResp 500 "NoneType object has no attribute predict") := by
  refine ⟨?_, ?_, ?_, ?_, ?_, ?_, ?_, ?_, ?_⟩
  · intro he
    simp [predict_api, he]
  · intro hne hmiss
    simp [predict_api, hne, hmiss]
  · intro e hne hmiss hy
    simp [predict_api, predict_api_try, hne, hmiss, hy]
  · intro y e hne hmiss hy hk
    simp [predict_api, predict_api_try, hne, hmiss, hy, hk]
  · intro y k e hne hmiss hy hk hp
    simp [predict_api, predict_api_try, hne, hmiss, hy, hk, hp]
  · intro y k p hne hmiss hy hk hp hyr
    simp [predict_api, predict_api_try, hne, hmiss, hy, hk, hp, hyr]
  · intro y k p hne hmiss hy hk hp hyr hkr
    simp [predict_api, predict_api_try, hne, hmiss, hy, hk, hp, hyr, hkr]
  · intro y k p hne hmiss hy hk hp hyr hkr hpr
    simp [predict_api, predict_api_try, hne, hmiss, hy, hk, hp, hyr, hkr, hpr]
  · intro y k p hne hmiss hy hk hp hyr hkr hpr hmodel
    simp [predict_api, predict_api_try, hne, hmiss, hy, hk, hp, hyr, hkr, hpr, hmodel]

/-- C1 witness: a body holding only `year` is answered 400 with the two
missing keys named, and an in-range body with an unloaded model is answered
500. -/
theorem predict_api_error_status_contract_witness :
    (([(("year" : String), JVal.jnum 2018)] : JsonObj) ≠ [] ∧
      missingOf [(("year" : String), JVal.jnum 2018)] ≠ [] ∧
      predict_api (initModelState .fileMissing) 2025 [(("year" : String), JVal.jnum 2018)] =
        errResp 400 ("Missing fields: " ++
          pyStrListRepr (missingOf [(("year" : String), JVal.jnum 2018)]))) ∧
      predict_api (initModelState .fileMissing) 2025
          [("year", JVal.jnum 2018), ("km_driven", JVal.jnum 15000),
           ("ex_showroom_price", JVal.jnum 85000)] =
        errResp 500 "NoneType object has no attribute predict" :=
  ⟨⟨by decide, by decide,
    (predict_api_error_status_contract (initModelState .fileMissing) 2025
      [(("year" : String), JVal.jnum 2018)]).2.1 (by decide) (by decide)⟩,
   (predict_api_error_status_contract (initModelState .fileMissing) 2025
      [("year", JVal.jnum 2018), ("km_driven", JVal.jnum 15000),
       ("ex_showroom_price", JVal.jnum 85000)]).2.2.2.2.2.2.2.2 2018 15000 85000
     (by decide) (by decide) rfl rfl rfl (by decide) (by decide) (by decide) rfl⟩

/-- C7 counterexample: model file missing, fully valid JSON body. The JSON
endpoint does not fail fast with a model-not-loaded condition: it runs
validation, attempts the prediction, and answers 500 with the AttributeError
text, which nowhere mentions a model-not-loaded state. -/
theorem predict_api_unloaded_not_fail_fast :
    predict_api (initModelState .fileMissing) 2025
        [("year", JVal.jnum 2018), ("km_driven", JVal.jnum 15000),
         ("ex_showroom_price", JVal.jnum 85000)] =
      errResp 500 "NoneType object has no attribute predict" ∧
      strContainsSub "NoneType object has no attribute predict" "model not loaded" = false ∧
      strContainsSub "NoneType object has no attribute predict" "Model not loaded" = false :=
  ⟨rfl, rfl, rfl⟩

/-- C7 (amended): when the model is not loaded, the form POST fails fast
with a rendered `Model not loaded: ...` error before reading the form, and
the health endpoint reports `model_loaded: false` with a non-null
`load_error`; the JSON endpoint, however, does not check the flag: a valid
body passes validation and the prediction attempt itself fails, surfacing
HTTP 500 with the AttributeError message instead of a model-not-loaded
message. -/
theorem model_unloaded_behavior (o : LoadOutcome) (cy : Int)
    (form : List (String × String)) (d : JsonObj) (cors : Bool) :
    (model_loaded (initModelState o) = false →
      index_post (initModelState o) cy form =
        { prediction := none, adjusted_prediction := none, breakdown := none,
          error := some ("Model not loaded: " ++
            ((initModelState o).load_error.getD "None")) }) ∧
      (model_loaded (initModelState o) = false →
        (health (initModelState o) cors).model_loaded = false ∧
          (health (initModelState o) cors).load_error = (initModelState o).load_error ∧
          (initModelState o).load_error ≠ none) ∧
      (∀ y k p, model_loaded (initModelState o) = false →
        d ≠ [] → missingOf d = [] →
        pyIntOf (jval d "year") = .ok y →
        pyFloatOf (jval d "km_driven") = .ok k →
        pyFloatOf (jval d "ex_showroom_price") = .ok p →
        ¬(y < 1900 ∨ y > cy) → ¬(k < 0) → ¬(p ≤ 0) →
        predict_api (initModelState o) cy d =
          errResp 500 "NoneType object has no attribute predict") := by
  refine ⟨?_, ?_, ?_⟩
  · intro hml
    simp [index_post, hml]
  · intro hml
    cases o <;> simp_all [initModelState, model_loaded, health]
  · intro y k p hml hne hmiss hy hk hp hyr hkr hpr
    have hmodel : (initModelState o).model = none := by
      cases o <;> simp_all [initModelState, model_loaded]
    simp [predict_api, predict_api_try, hne, hmiss, hy, hk, hp, hyr, hkr, hpr, hmodel]

/-- C7 witness: the amended behavior exercised with the model file missing,
at current year 2025, an empty form and a valid JSON body. -/
theorem model_unloaded_behavior_witness :
    model_loaded (initModelState .fileMissing) = false ∧
      index_post (initModelState .fileMissing) 2025 [] =
        { prediction := none, adjusted_prediction := none, breakdown := none,
          error := some ("Model not loaded: " ++
            ((initModelState .fileMissing).load_error.getD "None")) } ∧
      (health (initModelState .fileMissing) true).model_loaded = false ∧
      (initModelState .fileMissing).load_error ≠ none ∧
      predict_api (initModelState .fileMissing) 2025
          [("year", JVal.jnum 2018), ("km_driven", JVal.jnum 15000),
           ("ex_showroom_price", JVal.jnum 85000)] =
        errResp 500 "NoneType object has no attribute predict" :=
  ⟨rfl,
   (model_unloaded_behavior .fileMissing 2025 []
      [("year", JVal.jnum 2018), ("km_driven", JVal.jnum 15000),
       ("ex_showroom_price", JVal.jnum 85000)] true).1 rfl,
   ((model_unloaded_behavior .fileMissing 2025 []
      [("year", JVal.jnum 2018), ("km_driven", JVal.jnum 15000),
       ("ex_showroom_price", JVal.jnum 85000)] true).2.1 rfl).1,
   ((model_unloaded_behavior .fileMissing 2025 []
      [("year", JVal.jnum 2018), ("km_driven", JVal.jnum 15000),
       ("ex_showroom_price", JVal.jnum 85000)] true).2.1 rfl).2.2,
   (model_unloaded_behavior .fileMissing 2025 []
      [("year", JVal.jnum 2018), ("km_driven", JVal.jnum 15000),
       ("ex_showroom_price", JVal.jnum 85000)] true).2.2 2018 15000 85000 rfl
     (by decide) (by decide) rfl rfl rfl (by decide) (by decide) (by decide)⟩
